import Mathlib

/-!
Verification of the ADP attack-map pipeline (src/main.py).

The pipeline is embedded shallowly: a pandas cell is an `Option` (missing
values are `none`) or a `FieldValue`; a DataFrame column operation is a map
or filter over a list of rows; numeric cells are rationals; fallible pandas
and geopandas operations return `Except String`.
-/

/-- A pandas DataFrame cell as seen by the popup loop of create_map: a
missing value (NaN or None), a string, or a number. -/
inductive FieldValue where
  | null : FieldValue
  | str : String → FieldValue
  | num : ℚ → FieldValue
  deriving DecidableEq

/-- Python str of a cell value: the missing value prints as the float NaN
does, a string prints as itself, a number prints in decimal form. -/
def pyStr : FieldValue → String
  | .null => "nan"
  | .str s => s
  | .num q => toString q

/-- Python str of an optional string cell: a missing cell prints as NaN. -/
def strOfOpt : Option String → String
  | none => "nan"
  | some s => s

/-- Python str.lower, character by character (the strings compared against
are ASCII). -/
def pyLower (s : String) : String :=
  ⟨s.data.map Char.toLower⟩

/-- The fatality-flag derivation of read_shark_data (main.py lines 43-45):
1 if str of the Injury.severity cell, lower-cased, equals fatal, else 0. -/
def is_fatal_of (x : Option String) : ℚ :=
  if pyLower (strOfOpt x) = "fatal" then 1 else 0

/-- Containment of one character list in another: the needle is a prefix of
some suffix of the haystack. -/
def listContains (needle : List Char) : List Char → Bool
  | [] => needle.isEmpty
  | c :: rest => needle.isPrefixOf (c :: rest) || listContains needle rest

/-- Python substring containment: needle in haystack. -/
def pyContains (needle hay : String) : Bool :=
  listContains needle.toList hay.toList

/-- The species test of create_map line 149: shark occurs in the lower-cased
str of the species cell. -/
def containsShark (species : Option String) : Bool :=
  pyContains "shark" (pyLower (strOfOpt species))

/-- The folium feature groups created in create_map lines 127-136. -/
inductive FeatureGroup where
  | sharkFatal : FeatureGroup
  | sharkNonFatal : FeatureGroup
  | crocFatal : FeatureGroup
  | crocNonFatal : FeatureGroup
  | population : FeatureGroup
  deriving DecidableEq

/-- The marker-group choice of create_map lines 149-159: is_shark is the
substring test on species, and an is_fatal cell equal to 1 selects a fatal
group (a pandas comparison of a missing cell with 1 is False). -/
def targetGroup (species : Option String) (isf : Option ℚ) : FeatureGroup :=
  let is_shark := containsShark species
  if isf = some 1 then
    if is_shark then .sharkFatal else .crocFatal
  else
    if is_shark then .sharkNonFatal else .crocNonFatal

/-- pandas notna on a cell: false exactly on the missing value. -/
def pd_notna : FieldValue → Bool
  | .null => false
  | _ => true

/-- The popup filter of create_map lines 144-146: a column other than
geometry whose value satisfies notna, differs from the empty string, and is
not None (the last is implied by notna here, since None is a missing value;
a number or a missing value compares unequal to the empty string). -/
def popupKeep (cv : String × FieldValue) : Bool :=
  cv.1 != "geometry" && pd_notna cv.2 &&
    (match cv.2 with
     | .str s => s != ""
     | _ => true)

/-- The columns of a row that contribute a popup entry, in column order. -/
def popupFields (fields : List (String × FieldValue)) :
    List (String × FieldValue) :=
  fields.filter popupKeep

/-- One popup line of create_map line 147. -/
def popupEntry (c : String) (v : FieldValue) : String :=
  "<b>" ++ c ++ ":</b> " ++ pyStr v ++ "<br>"

/-- The popup string of create_map lines 142-147: the concatenation of the
entries of the kept columns. -/
def popup_info (fields : List (String × FieldValue)) : String :=
  String.join ((popupFields fields).map fun cv => popupEntry cv.1 cv.2)

/-- Colour-scale bounds of create_map lines 204-212: drop the missing values
of the selected field, take min and max when any remain (0 and 1 otherwise),
and widen the max by one when the two coincide. The addition on line 212 is
exact here; the program performs it on IEEE doubles, where vmin plus 1.0
rounds back to vmin once the magnitude of vmin reaches 2 to the 53. -/
def computeBounds (colVals : List (Option ℚ)) : ℚ × ℚ :=
  let vals := colVals.filterMap id
  let vmin := match vals.min? with
    | some v => v
    | none => 0
  let vmax := match vals.max? with
    | some v => v
    | none => 1
  if vmin = vmax then (vmin, vmin + 1) else (vmin, vmax)

/-- Circle-marker radius of create_map line 254. Rational division is total
(division by zero yields zero), whereas the Python float division on line 254
raises ZeroDivisionError when vmax equals vmin; statements about this
function therefore cannot by themselves establish that the program divides
safely. -/
def circleRadius (fval vmin vmax : ℚ) : ℚ :=
  max 2 ((fval - vmin) / (vmax - vmin) * 18 + 2)

/-- A pandas timestamp, by calendar fields. -/
structure Timestamp where
  year : Int
  month : Int
  day : Int
  deriving DecidableEq

/-- The error-handling mode of pandas to_datetime. -/
inductive ErrMode where
  | raiseMode : ErrMode
  | coerce : ErrMode
  deriving DecidableEq

/-- pandas to_datetime applied to one already-analysed cell: under coerce a
failed parse becomes the missing value NaT, under raise it is an error. -/
def to_datetime (mode : ErrMode) (parsed : Option Timestamp) :
    Except String (Option Timestamp) :=
  match mode with
  | .coerce => .ok parsed
  | .raiseMode =>
    match parsed with
    | some d => .ok (some d)
    | none => .error "ParserError: could not parse"

/-- Assembly of a year/month pair with day fixed at 1, as pandas does for a
dataframe argument of to_datetime (main.py lines 35-41): both parts must be
present and the month must be a calendar month, otherwise the parse fails. -/
def assembleYM (year month : Option Int) : Option Timestamp :=
  match year, month with
  | some y, some m => if 1 ≤ m ∧ m ≤ 12 then some ⟨y, m, 1⟩ else none
  | _, _ => none

/-- A row of the shark spreadsheet after the column selection and renaming of
main.py lines 10-33. -/
structure SharkRow where
  lat : Option ℚ
  long : Option ℚ
  injury_severity : Option String
  sex : Option String
  incident_month : Option Int
  incident_year : Option Int
  species : Option String
  activity : Option String
  provoked : Option String
  deriving DecidableEq

/-- A point geometry; a coordinate built from a missing cell is missing. -/
structure GeoPoint where
  x : Option ℚ
  y : Option ℚ
  deriving DecidableEq

/-- A record of the unified output schema (main.py lines 56-70). -/
structure AttackRecord where
  geometry : GeoPoint
  lat : Option ℚ
  long : Option ℚ
  is_fatal : Option ℚ
  sex : Option String
  date : Option Timestamp
  species : Option String
  activity : Option String
  provoked : Option String
  deriving DecidableEq

/-- The date derivation of read_shark_data lines 35-41: to_datetime with
errors coerce over the year and month columns with day fixed at 1. -/
def sharkDateStep (r : SharkRow) : Except String (Option Timestamp) :=
  to_datetime .coerce (assembleYM r.incident_year r.incident_month)

/-- A shark row with its derived date and fatality columns. -/
structure SharkAug where
  row : SharkRow
  date : Option Timestamp
  isf : ℚ
  deriving DecidableEq

/-- The column derivations of read_shark_data lines 35-45, per row. -/
def sharkAugmentE (r : SharkRow) : Except String SharkAug := do
  let d ← sharkDateStep r
  return ⟨r, d, is_fatal_of r.injury_severity⟩

/-- The dropna of read_shark_data line 47: kept iff both coordinates are
present. -/
def coordsPresent (r : SharkRow) : Bool :=
  r.lat.isSome && r.long.isSome

/-- The year filter of read_shark_data line 49: a pandas comparison is False
on a missing cell, so kept iff the year is present and at least 2015. -/
def yearKeep (r : SharkRow) : Bool :=
  match r.incident_year with
  | some y => decide (2015 ≤ y)
  | none => false

/-- Geometry construction and column selection of read_shark_data lines
51-70: the point is built from the long and lat columns. -/
def toSharkRecord (a : SharkAug) : AttackRecord :=
  ⟨⟨a.row.long, a.row.lat⟩, a.row.lat, a.row.long, some a.isf, a.row.sex,
    a.date, a.row.species, a.row.activity, a.row.provoked⟩

/-- Row-wise sequencing of a fallible column derivation, as pandas applies it
down a column. -/
def mapExcept (f : α → Except String β) : List α → Except String (List β)
  | [] => .ok []
  | a :: as => do
    let b ← f a
    let bs ← mapExcept f as
    return b :: bs

/-- read_shark_data, main.py lines 7-72, over the selected and renamed
columns: derive the date and fatality columns, drop rows with a missing
coordinate, keep incident years at least 2015, and emit records whose point
geometries come from the long and lat columns (crs EPSG 4326). -/
def read_shark_data (rows : List SharkRow) :
    Except String (List AttackRecord) := do
  let aug ← mapExcept sharkAugmentE rows
  let aug := aug.filter fun a => coordsPresent a.row
  let aug := aug.filter fun a => yearKeep a.row
  return aug.map toSharkRecord

/-- The pure value of the shark derivation step (to_datetime with coerce
never fails, so the step always yields this). -/
def sharkAugment (r : SharkRow) : SharkAug :=
  ⟨r, assembleYM r.incident_year r.incident_month,
    is_fatal_of r.injury_severity⟩

/-- The pure value of the whole shark pipeline. -/
def sharkPipeline (rows : List SharkRow) : List AttackRecord :=
  ((((rows.map sharkAugment).filter fun a => coordsPresent a.row).filter
    fun a => yearKeep a.row).map toSharkRecord)

lemma sharkAugmentE_eq (r : SharkRow) :
    sharkAugmentE r = .ok (sharkAugment r) := rfl

lemma mapExcept_ok (f : α → Except String β) (g : α → β)
    (h : ∀ a, f a = .ok (g a)) :
    ∀ l : List α, mapExcept f l = .ok (l.map g) := by
  intro l
  induction l with
  | nil => rfl
  | cons a as ih =>
    simp [mapExcept, h a, ih, List.map_cons]
    rfl

lemma read_shark_data_eq (rows : List SharkRow) :
    read_shark_data rows = .ok (sharkPipeline rows) := by
  simp [read_shark_data, mapExcept_ok sharkAugmentE sharkAugment
    sharkAugmentE_eq rows, sharkPipeline]

/-- A row of the crocodile csv, which already carries the unified columns
that read_croc_data keeps (main.py lines 89-103); the date column is raw. -/
structure CrocRow where
  lat : Option ℚ
  long : Option ℚ
  is_fatal : Option ℚ
  sex : Option String
  date : Option String
  deriving DecidableEq

/-- The date derivation of read_croc_data line 78: to_datetime with errors
coerce over the raw date column; parseDate stands for the pandas string-date
parser, and a missing cell parses to NaT. -/
def crocDateStep (parseDate : String → Option Timestamp) (r : CrocRow) :
    Except String (Option Timestamp) :=
  to_datetime .coerce (r.date.bind parseDate)

/-- One output record of read_croc_data, main.py lines 75-105: the point
geometry comes from the long and lat columns (crs EPSG 4326), species is the
constant crocodile, activity and provoked are set to None. -/
def crocRecordE (parseDate : String → Option Timestamp) (r : CrocRow) :
    Except String AttackRecord := do
  let d ← crocDateStep parseDate r
  return ⟨⟨r.long, r.lat⟩, r.lat, r.long, r.is_fatal, r.sex, d,
    some "crocodile", none, none⟩

/-- read_croc_data, main.py lines 75-105, row by row. -/
def read_croc_data (parseDate : String → Option Timestamp)
    (rows : List CrocRow) : Except String (List AttackRecord) :=
  mapExcept (crocRecordE parseDate) rows

/-- The pure value of one crocodile record. -/
def crocRecord (parseDate : String → Option Timestamp) (r : CrocRow) :
    AttackRecord :=
  ⟨⟨r.long, r.lat⟩, r.lat, r.long, r.is_fatal, r.sex, r.date.bind parseDate,
    some "crocodile", none, none⟩

lemma crocRecordE_eq (parseDate : String → Option Timestamp) (r : CrocRow) :
    crocRecordE parseDate r = .ok (crocRecord parseDate r) := rfl

lemma read_croc_data_eq (parseDate : String → Option Timestamp)
    (rows : List CrocRow) :
    read_croc_data parseDate rows = .ok (rows.map (crocRecord parseDate)) :=
  mapExcept_ok _ _ (crocRecordE_eq parseDate) rows

/-- A row of the population csv: x and y coordinate columns and a density
value (main.py lines 109-111). -/
structure PopRow where
  x : Option ℚ
  y : Option ℚ
  density : Option ℚ
  deriving DecidableEq

/-- A GeoDataFrame: rows together with an optional coordinate reference
system; crs is none when the frame was constructed without one. -/
structure GeoFrame (α : Type) where
  rows : List α
  crs : Option String
  deriving DecidableEq

/-- geopandas GeoDataFrame.to_crs: reprojecting a frame whose crs is unset
raises ValueError (naive geometries cannot be transformed); otherwise the
frame is reprojected and carries the target crs (the coordinate change
itself is irrelevant to the properties below and is left abstract). -/
def to_crs (target : String) (g : GeoFrame α) : Except String (GeoFrame α) :=
  match g.crs with
  | none => .error "ValueError: Cannot transform naive geometries"
  | some _ => .ok ⟨g.rows, some target⟩

/-- read_population_data, main.py lines 108-113: the GeoDataFrame is built
from the x and y columns with no crs argument, then to_crs to EPSG 4326 is
attempted on it. -/
def read_population_data (rows : List PopRow) :
    Except String (GeoFrame PopRow) :=
  to_crs "EPSG:4326" ⟨rows, none⟩

lemma min?_spec (l : List ℚ) (hl : l ≠ []) :
    ∃ lo, l.min? = some lo ∧ lo ∈ l ∧ ∀ v ∈ l, lo ≤ v := by
  cases l with
  | nil => exact absurd rfl hl
  | cons a as =>
    obtain ⟨lo, hlo⟩ := Option.isSome_iff_exists.mp
      (List.isSome_min?_of_mem (List.mem_cons_self a as))
    refine ⟨lo, hlo, List.min?_mem (fun a b => min_choice a b) hlo, ?_⟩
    intro v hv
    exact (List.le_min?_iff (fun a b c => le_min_iff) hlo).mp le_rfl v hv

lemma max?_spec (l : List ℚ) (hl : l ≠ []) :
    ∃ hi, l.max? = some hi ∧ hi ∈ l ∧ ∀ v ∈ l, v ≤ hi := by
  cases l with
  | nil => exact absurd rfl hl
  | cons a as =>
    obtain ⟨hi, hhi⟩ := Option.isSome_iff_exists.mp
      (List.isSome_max?_of_mem (List.mem_cons_self a as))
    refine ⟨hi, hhi, List.max?_mem (fun a b => max_choice a b) hhi, ?_⟩
    intro v hv
    exact (List.max?_le_iff (fun a b c => max_le_iff) hhi).mp le_rfl v hv

/-- A shark row whose month cell is out of range, so its date parse fails. -/
def sharkRowBadMonth : SharkRow :=
  ⟨some 10, some 20, some "minor", some "male", some 13, some 2020,
    some "white shark", none, none⟩

/-- A crocodile row whose raw date cell does not parse. -/
def crocRowBadDate : CrocRow :=
  ⟨some (-12), some 131, some 0, some "female", some "not a date"⟩

lemma computeBounds_single (q : ℚ) : computeBounds [some q] = (q, q + 1) := by
  simp [computeBounds, List.filterMap_cons, List.min?_cons', List.max?_cons']

lemma popupKeep_iff (c : String) (v : FieldValue) :
    popupKeep (c, v) = true ↔
      (c ≠ "geometry" ∧ v ≠ FieldValue.null ∧ v ≠ FieldValue.str "") := by
  cases v <;> simp [popupKeep, pd_notna]

/-- C1: the spec claims read_population_data returns a frame reprojected to
EPSG 4326, but the code constructs the GeoDataFrame without a crs, so the
to_crs call raises ValueError for every input: the frame is naive. -/
theorem read_population_data_always_raises (rows : List PopRow) :
    read_population_data rows =
      .error "ValueError: Cannot transform naive geometries" := rfl

/-- C2: the derived fatality flag is 1 iff the Injury.severity cell is a
present string whose lower-casing is fatal, and 0 in every other case,
missing cells included. -/
theorem is_fatal_iff (x : Option String) :
    (is_fatal_of x = 1 ↔ ∃ s, x = some s ∧ pyLower s = "fatal") ∧
    (is_fatal_of x = 0 ↔ ¬∃ s, x = some s ∧ pyLower s = "fatal") := by
  cases x with
  | none =>
    constructor <;> simp [is_fatal_of, strOfOpt] <;> decide
  | some s =>
    by_cases h : pyLower s = "fatal" <;>
      simp [is_fatal_of, strOfOpt, h]

/-- C4 counterexample: an activity cell holding the empty string is not null,
yet its column contributes no popup entry and the whole popup is empty, since
the code also requires the value to differ from the empty string. -/
theorem popup_empty_string_dropped :
    FieldValue.str "" ≠ FieldValue.null ∧
    popupFields [("activity", FieldValue.str "")] = [] ∧
    popup_info [("activity", FieldValue.str "")] = "" := by
  refine ⟨by decide, by decide, by decide⟩

/-- C4 amended: a column contributes a popup entry iff it occurs in the row,
is not the geometry column, and its value is neither null nor the empty
string. -/
theorem popupFields_mem (fields : List (String × FieldValue)) (c : String)
    (v : FieldValue) :
    (c, v) ∈ popupFields fields ↔
      ((c, v) ∈ fields ∧ c ≠ "geometry" ∧ v ≠ FieldValue.null ∧
        v ≠ FieldValue.str "") := by
  simp [popupFields, List.mem_filter, popupKeep_iff]

/-- C5: every incident marker lands in exactly one of the four attack groups;
it is in a shark group iff the lower-cased species string contains shark, and
in a fatal group iff the is_fatal cell equals 1. -/
theorem targetGroup_spec (species : Option String) (isf : Option ℚ) :
    (targetGroup species isf = .sharkFatal ∨
      targetGroup species isf = .sharkNonFatal ∨
      targetGroup species isf = .crocFatal ∨
      targetGroup species isf = .crocNonFatal) ∧
    ((targetGroup species isf = .sharkFatal ∨
      targetGroup species isf = .sharkNonFatal) ↔
        containsShark species = true) ∧
    ((targetGroup species isf = .sharkFatal ∨
      targetGroup species isf = .crocFatal) ↔ isf = some 1) := by
  unfold targetGroup
  by_cases h1 : isf = some 1 <;> by_cases h2 : containsShark species = true <;>
    simp [h1, h2]

/-- C8: date parsing in both readers runs to_datetime with errors coerce, so
it never raises: a row whose year/month pair (shark) or raw date cell
(crocodile) fails to parse gets the missing value NaT, and every row yields
an ok result. -/
theorem date_parse_coerces (r : SharkRow) (parse : String → Option Timestamp)
    (c : CrocRow)
    (h1 : assembleYM r.incident_year r.incident_month = none)
    (h2 : c.date.bind parse = none) :
    sharkDateStep r = .ok none ∧ crocDateStep parse c = .ok none ∧
    (∀ r2 : SharkRow, ∃ d, sharkDateStep r2 = .ok d) ∧
    (∀ c2 : CrocRow, ∃ d, crocDateStep parse c2 = .ok d) := by
  refine ⟨?_, ?_, fun r2 => ⟨_, rfl⟩, fun c2 => ⟨_, rfl⟩⟩
  · simp [sharkDateStep, to_datetime, h1]
  · simp [crocDateStep, to_datetime, h2]

/-- Witness for C8 at a shark row with month 13 and a crocodile row whose
date string is rejected by the parser. -/
theorem date_parse_coerces_witness :
    sharkDateStep sharkRowBadMonth = .ok none ∧
    crocDateStep (fun _ => none) crocRowBadDate = .ok none ∧
    (∀ r2 : SharkRow, ∃ d, sharkDateStep r2 = .ok d) ∧
    (∀ c2 : CrocRow, ∃ d, crocDateStep (fun _ => none) c2 = .ok d) :=
  date_parse_coerces sharkRowBadMonth (fun _ => none) crocRowBadDate
    (by decide) rfl

/-- A shark row lacking its latitude cell. -/
def sharkRowNoLat : SharkRow :=
  ⟨none, some 151, some "fatal", some "female", some 6, some 2020,
    some "bull shark", some "swimming", some "provoked"⟩

/-- A complete shark row with incident year 2010. -/
def sharkRowOld : SharkRow :=
  ⟨some (-20), some 140, some "minor", some "male", some 2, some 2010,
    some "tiger shark", none, some "unprovoked"⟩

/-- A complete shark row with incident year 2018. -/
def sharkRowNew : SharkRow :=
  ⟨some (-20), some 140, some "fatal", some "male", some 2, some 2018,
    some "tiger shark", none, some "unprovoked"⟩

/-- C3: when the selected population field has at least one value left after
dropna, the colour scale runs from the least to the greatest of those values,
except that the upper bound becomes the least value plus one when the two
coincide. -/
theorem computeBounds_spec (colVals : List (Option ℚ))
    (h : colVals.filterMap id ≠ []) :
    ∃ lo hi, lo ∈ colVals.filterMap id ∧ hi ∈ colVals.filterMap id ∧
      (∀ v ∈ colVals.filterMap id, lo ≤ v ∧ v ≤ hi) ∧
      computeBounds colVals = (lo, if lo = hi then lo + 1 else hi) := by
  obtain ⟨lo, hmin, hmem, hlb⟩ := min?_spec _ h
  obtain ⟨hi, hmax, hmemh, hub⟩ := max?_spec _ h
  refine ⟨lo, hi, hmem, hmemh, fun v hv => ⟨hlb v hv, hub v hv⟩, ?_⟩
  by_cases he : lo = hi <;> simp [computeBounds, hmin, hmax, he]

/-- Witness for C3 on a column with values 3 and 7 around a missing cell. -/
theorem computeBounds_spec_witness :
    ∃ lo hi, lo ∈ List.filterMap id [some (3 : ℚ), none, some 7] ∧
      hi ∈ List.filterMap id [some (3 : ℚ), none, some 7] ∧
      (∀ v ∈ List.filterMap id [some (3 : ℚ), none, some 7],
        lo ≤ v ∧ v ≤ hi) ∧
      computeBounds [some (3 : ℚ), none, some 7] =
        (lo, if lo = hi then lo + 1 else hi) :=
  computeBounds_spec [some 3, none, some 7] (by decide)

/-- C6: a shark row with a missing latitude or longitude contributes nothing
to the output, wherever it sits in the input. -/
theorem shark_missing_coords_dropped (xs ys : List SharkRow) (row : SharkRow)
    (h : row.lat = none ∨ row.long = none) :
    read_shark_data (xs ++ row :: ys) = read_shark_data (xs ++ ys) := by
  have hc : coordsPresent row = false := by
    rcases h with h | h <;> simp [coordsPresent, h]
  rw [read_shark_data_eq, read_shark_data_eq]
  unfold sharkPipeline
  simp [List.filter_append, List.filter_cons, hc, sharkAugment]

/-- Witness for C6 on a row lacking its latitude. -/
theorem shark_missing_coords_dropped_witness :
    read_shark_data [sharkRowNoLat] = read_shark_data [] :=
  shark_missing_coords_dropped [] [] sharkRowNoLat (Or.inl rfl)

/-- C7: a shark row with incident year below 2015 contributes nothing to the
output, and a row with year at least 2015 and both coordinates present is
kept: its record appears in the output. -/
theorem shark_year_filter (xs ys : List SharkRow) (row : SharkRow) :
    ((∃ y, row.incident_year = some y ∧ y < 2015) →
      read_shark_data (xs ++ row :: ys) = read_shark_data (xs ++ ys)) ∧
    ((∃ y, row.incident_year = some y ∧ 2015 ≤ y) →
      row.lat.isSome = true → row.long.isSome = true →
      ∃ out, read_shark_data (xs ++ row :: ys) = .ok out ∧
        toSharkRecord (sharkAugment row) ∈ out) := by
  constructor
  · rintro ⟨y, hy, hlt⟩
    have hk : yearKeep row = false := by
      simp [yearKeep, hy, decide_eq_false_iff_not]
      omega
    rw [read_shark_data_eq, read_shark_data_eq]
    unfold sharkPipeline
    cases hcp : coordsPresent row <;>
      simp [List.filter_append, List.filter_cons, hcp, hk, sharkAugment]
  · rintro ⟨y, hy, hge⟩ hlat hlong
    have hk : yearKeep row = true := by
      simp [yearKeep, hy, decide_eq_true_eq]
      omega
    have hcp : coordsPresent row = true := by
      simp [coordsPresent, hlat, hlong]
    refine ⟨sharkPipeline (xs ++ row :: ys), read_shark_data_eq _, ?_⟩
    unfold sharkPipeline
    simp [List.filter_append, List.filter_cons, hcp, hk, sharkAugment,
      List.mem_map, List.mem_append, List.mem_cons]

/-- Witness for C7 on a 2010 row (dropped) and a 2018 row (kept). -/
theorem shark_year_filter_witness :
    read_shark_data [sharkRowOld] = read_shark_data [] ∧
    (∃ out, read_shark_data [sharkRowNew] = .ok out ∧
      toSharkRecord (sharkAugment sharkRowNew) ∈ out) :=
  ⟨(shark_year_filter [] [] sharkRowOld).1 ⟨2010, rfl, by decide⟩,
    (shark_year_filter [] [] sharkRowNew).2 ⟨2018, rfl, by decide⟩ rfl rfl⟩

/-- C9: every record either reader returns carries a point geometry built
from its own coordinate columns: the x coordinate is the long cell and the y
coordinate is the lat cell. -/
theorem geometry_matches_coords (rows : List SharkRow)
    (parse : String → Option Timestamp) (crows : List CrocRow)
    (souts couts : List AttackRecord)
    (hs : read_shark_data rows = .ok souts)
    (hc : read_croc_data parse crows = .ok couts) :
    (∀ rec ∈ souts, rec.geometry.x = rec.long ∧ rec.geometry.y = rec.lat) ∧
    (∀ rec ∈ couts, rec.geometry.x = rec.long ∧ rec.geometry.y = rec.lat) := by
  rw [read_shark_data_eq] at hs
  rw [read_croc_data_eq] at hc
  simp only [Except.ok.injEq] at hs hc
  subst hs hc
  constructor
  · intro rec hrec
    obtain ⟨a, _, rfl⟩ := List.mem_map.mp hrec
    exact ⟨rfl, rfl⟩
  · intro rec hrec
    obtain ⟨a, _, rfl⟩ := List.mem_map.mp hrec
    exact ⟨rfl, rfl⟩

/-- Witness for C9 on one shark row and one crocodile row. -/
theorem geometry_matches_coords_witness :
    (∀ rec ∈ sharkPipeline [sharkRowNew],
      rec.geometry.x = rec.long ∧ rec.geometry.y = rec.lat) ∧
    (∀ rec ∈ List.map (crocRecord (fun _ => none)) [crocRowBadDate],
      rec.geometry.x = rec.long ∧ rec.geometry.y = rec.lat) :=
  geometry_matches_coords [sharkRowNew] (fun _ => none) [crocRowBadDate] _ _
    (read_shark_data_eq _) (read_croc_data_eq _ _)

/-- C10: the equal-bounds adjustment of lines 211-212 is meant to keep the
denominator of line 254 away from zero, and does so in exact arithmetic: at
the failing input, a field whose only value is 2 to the 53, the embedded
computation yields bounds one apart. The program instead adds 1.0 in IEEE
doubles, where 2 to the 53 plus one is not representable and the sum rounds
back to 2 to the 53 (ties to even), so vmax equals vmin, the denominator of
line 254 is 0.0, and the Python float division raises ZeroDivisionError. -/
theorem computeBounds_at_two_pow_53 :
    computeBounds [some (9007199254740992 : ℚ)] =
      (9007199254740992, 9007199254740993) := by
  rw [computeBounds_single]
  norm_num
